import Mathlib

/-!
Verification development for the two render-pass plugins of the repository:

* `Source/RenderPasses/JumpRenderPass/JumpRenderPass.cpp` (a rasterization pass),
* `Source/RenderPasses/RenderPass01/RenderPass01.cpp` (a ray-tracing pass).

Both passes are glue code: every statement either tests a member or an input, or calls
into the host framework.  The embedding therefore keeps three things:

* the members of each pass (a structure),
* the inputs each operation reads (device, scene, render data) as plain values,
* the host framework as a chronological record of the calls a pass makes into it, with
  the identity of every object a factory call hands back.

An operation is a function from the pass members and the framework record to an outcome
(result or failure), the new members and the new framework record.  Members are kept when
an operation fails, as they are in C++ when an exception leaves a member function.
-/

set_option linter.dupNamespace false

namespace Falcor

/-! ## Framework vocabulary -/

/-- Resource formats named by the two passes (`Unknown` is the framework default). -/
inductive ResourceFormat
  | Unknown
  | RGBA32Uint
  | RGBA32Float
  deriving DecidableEq, Repr

/-- Bind flags: `Resource::BindFlags` values a reflected field can ask for. -/
inductive ResourceBindFlags
  | None
  | ShaderResource
  | UnorderedAccess
  | RenderTarget
  | DepthStencil
  deriving DecidableEq, Repr

/-- Modelled from the spec: the framework record `ChannelDesc` (the spec's "input/output
resource channels") is declared outside the sources.  Its fields are the five positional
initialisers the passes write; the last two may be left out, and then the channel is
required (`optional = false`) and its format is left to the framework (`Unknown`). -/
structure ChannelDesc where
  name : String
  texname : String
  desc : String
  optional : Bool := false
  format : ResourceFormat := ResourceFormat.Unknown
  deriving DecidableEq, Repr

/-- A list of channels, in declaration order. -/
abbrev ChannelList := List ChannelDesc

/-- Whether a reflected field is read or written by the pass. -/
inductive Visibility
  | Input
  | Output
  deriving DecidableEq, Repr

/-- One field of a `RenderPassReflection`, as configured through the builder calls the
passes and the channel helpers use (`format`, `bindFlags`, `flags(Optional)`). -/
structure Field where
  name : String
  desc : String
  visibility : Visibility
  format : ResourceFormat := ResourceFormat.Unknown
  bindFlags : ResourceBindFlags := ResourceBindFlags.None
  optional : Bool := false
  deriving DecidableEq, Repr

/-- Builder call `field.format(f)`. -/
def Field.setFormat (f : ResourceFormat) (field : Field) : Field :=
  { field with format := f }

/-- Builder call `field.bindFlags(flags)`. -/
def Field.setBindFlags (flags : ResourceBindFlags) (field : Field) : Field :=
  { field with bindFlags := flags }

/-- Builder call `field.flags(Field::Flags::Optional)`. -/
def Field.setOptional (field : Field) : Field :=
  { field with optional := true }

/-- The reflection object a pass returns from `reflect`: its fields in the order added. -/
structure RenderPassReflection where
  fields : List Field
  deriving DecidableEq, Repr

/-- A freshly constructed reflector (`RenderPassReflection reflector;`). -/
def RenderPassReflection.empty : RenderPassReflection := { fields := [] }

/-- Call `reflector.addInput(name, desc)` followed by the builder calls in `configure`. -/
def RenderPassReflection.addInput (r : RenderPassReflection) (name desc : String)
    (configure : Field → Field) : RenderPassReflection :=
  { fields := r.fields ++ [configure { name := name, desc := desc, visibility := Visibility.Input }] }

/-- Call `reflector.addOutput(name, desc)` followed by the builder calls in `configure`. -/
def RenderPassReflection.addOutput (r : RenderPassReflection) (name desc : String)
    (configure : Field → Field) : RenderPassReflection :=
  { fields := r.fields ++ [configure { name := name, desc := desc, visibility := Visibility.Output }] }

/-- The input fields of a reflection. -/
def RenderPassReflection.inputs (r : RenderPassReflection) : List Field :=
  r.fields.filter fun f => f.visibility = Visibility.Input

/-- The output fields of a reflection. -/
def RenderPassReflection.outputs (r : RenderPassReflection) : List Field :=
  r.fields.filter fun f => f.visibility = Visibility.Output

/-- Modelled from the spec: the builder calls one channel turns into.  The framework helper
that does this is outside the sources; a channel declares a field carrying the channel's
name and description, the bind flags of the call, the channel's format when it names one,
and the optional flag when the channel is optional. -/
def configureChannel (bindFlags : ResourceBindFlags) (it : ChannelDesc) (tex : Field) : Field :=
  let tex := tex.setBindFlags bindFlags
  let tex := if it.format ≠ ResourceFormat.Unknown then tex.setFormat it.format else tex
  if it.optional then tex.setOptional else tex

/-- Modelled from the spec: the framework helper `addRenderPassInputs(reflect, channels,
bindFlags)`, which is outside the sources: one input field per channel, in order.  Called
without bind flags it uses `ShaderResource`. -/
def addRenderPassInputs (reflect : RenderPassReflection) (channels : ChannelList)
    (bindFlags : ResourceBindFlags) : RenderPassReflection :=
  channels.foldl (fun r it => r.addInput it.name it.desc (configureChannel bindFlags it)) reflect

/-- Modelled from the spec: the framework helper `addRenderPassOutputs(reflect, channels,
bindFlags)`, which is outside the sources: one output field per channel, in order.  Called
without bind flags it uses `UnorderedAccess`. -/
def addRenderPassOutputs (reflect : RenderPassReflection) (channels : ChannelList)
    (bindFlags : ResourceBindFlags) : RenderPassReflection :=
  channels.foldl (fun r it => r.addOutput it.name it.desc (configureChannel bindFlags it)) reflect

/-- Unsigned two-vector (`uint2`). -/
structure uint2 where
  x : Nat
  y : Nat
  deriving DecidableEq, Repr

/-- Unsigned three-vector (`uint3`). -/
structure uint3 where
  x : Nat
  y : Nat
  z : Nat
  deriving DecidableEq, Repr

/-- Four-vector of reals (`float4`); the passes only build it from the literals 0 and 1. -/
structure float4 where
  x : ℚ
  y : ℚ
  z : ℚ
  w : ℚ
  deriving DecidableEq

/-- The broadcast constructor `float4(v)`. -/
def float4.splat (v : ℚ) : float4 := { x := v, y := v, z := v, w := v }

/-- The compile data handed to `reflect` by the render graph. -/
structure CompileData where
  defaultTexDims : uint2
  defaultTexFormat : ResourceFormat
  deriving DecidableEq, Repr

/-! ## Inputs the passes read -/

/-- Identity of an object owned by the framework (what a non-null `SharedPtr` points to). -/
abbrev ObjectId := Nat

/-- Device features the passes ask about (`Device::SupportedFeatures`). -/
inductive SupportedFeatures
  | Barycentrics
  | RasterizerOrderedViews
  | Raytracing
  deriving DecidableEq, Repr

/-- The device behind the global `gpDevice`: the set of features it supports. -/
structure Device where
  supportedFeatures : List SupportedFeatures
  deriving DecidableEq, Repr

/-- Query `gpDevice->isFeatureSupported(flags)`. -/
def Device.isFeatureSupported (d : Device) (flags : SupportedFeatures) : Bool :=
  decide (flags ∈ d.supportedFeatures)

/-- Primitive topologies of a vertex array object (`Vao::Topology`). -/
inductive Topology
  | Undefined
  | PointList
  | LineList
  | LineStrip
  | TriangleList
  | TriangleStrip
  deriving DecidableEq, Repr

/-- A vertex array object, as far as the passes look at it. -/
structure Vao where
  getPrimitiveTopology : Topology
  deriving DecidableEq, Repr

/-- Geometry kinds of a scene (`Scene::GeometryType`). -/
inductive GeometryType
  | None
  | TriangleMesh
  | DisplacedTriangleMesh
  | Curve
  | SDFGrid
  | Custom
  deriving DecidableEq, Repr

/-- A scene, as the answers to the queries the passes make on it.  `getMeshVao` is `none`
for a null VAO pointer.  Defines and type conformances are kept symbolic (see
`DefineList` and `TypeConformanceList`). -/
structure Scene where
  id : ObjectId
  getMeshVao : Option Vao
  hasGeometryType : GeometryType → Bool
  getGeometryIDs : GeometryType → List Nat
  getGeometryCount : Nat
  getRaytracingMaxAttributeSize : Nat

/-- A texture resource. -/
structure Texture where
  id : ObjectId
  deriving DecidableEq, Repr

/-- A buffer resource. -/
structure Buffer where
  id : ObjectId
  deriving DecidableEq, Repr

/-- A resource bound to a render-pass channel. -/
inductive Resource
  | texture (t : Texture)
  | buffer (b : Buffer)
  deriving DecidableEq, Repr

/-- The render data handed to `execute`: `renderData[name]` for every channel name (`none`
is the null pointer the framework returns for a channel without resource) and the default
texture dimensions. -/
structure RenderData where
  getResource : String → Option Resource
  getDefaultTextureDims : uint2

/-- Modelled from the spec: the framework idiom `renderData[name]->asTexture()`, whose
definition is outside the sources: the texture behind the channel, and null when the
channel has no resource or its resource is not a texture. -/
def asTexture (pResource : Option Resource) : Option Texture :=
  match pResource with
  | some (Resource.texture t) => some t
  | _ => none

/-- An unordered-access view of a texture (`pTexture->getUAV()`). -/
structure UnorderedAccessView where
  pResource : Texture
  deriving DecidableEq, Repr

/-- Query `pTexture->getUAV()` with its default arguments. -/
def Texture.getUAV (t : Texture) : UnorderedAccessView := { pResource := t }

/-- The render-target view `pFbo->getRenderTargetView(rtIndex)` of a frame buffer object:
whatever is attached to that colour slot when the view is used. -/
structure RenderTargetView where
  pFbo : ObjectId
  rtIndex : Nat
  deriving DecidableEq, Repr

/-- The depth-stencil view `pFbo->getDepthStencilView()` of a frame buffer object. -/
structure DepthStencilView where
  pFbo : ObjectId
  deriving DecidableEq, Repr

/-- Query `pFbo->getRenderTargetView(rtIndex)`. -/
def Fbo.getRenderTargetView (pFbo : ObjectId) (rtIndex : Nat) : RenderTargetView :=
  { pFbo := pFbo, rtIndex := rtIndex }

/-- Cull modes of the rasterizer (`RasterizerState::CullMode`). -/
inductive CullMode
  | None
  | Front
  | Back
  deriving DecidableEq, Repr

/-- Where a define list handed to `addDefines` or to a program factory comes from.  The
lists themselves are computed by the framework. -/
inductive DefineList
  | Scene_getSceneDefines (scene : Scene)
  | getValidResourceDefines (channels : ChannelList) (renderData : RenderData)
  | SampleGenerator_getDefines (pSampleGenerator : ObjectId)

/-- Where a type-conformance list handed to `setTypeConformances` comes from. -/
inductive TypeConformanceList
  | Scene_getTypeConformances (scene : Scene)

/-- Shader stages of a raster program entry point. -/
inductive ShaderType
  | Vertex
  | Pixel
  deriving DecidableEq, Repr

/-- The description of a raster program (`Program::Desc`), built by the calls
`addShaderLibrary`, `vsEntry`, `psEntry` and `setShaderModel`. -/
structure ProgramDesc where
  shaderLibraries : List String
  entryPoints : List (ShaderType × String)
  shaderModel : String
  deriving DecidableEq, Repr

/-- A default-constructed `Program::Desc`. -/
def ProgramDesc.empty : ProgramDesc :=
  { shaderLibraries := [], entryPoints := [], shaderModel := "" }

/-- Builder call `desc.addShaderLibrary(path)`. -/
def ProgramDesc.addShaderLibrary (desc : ProgramDesc) (path : String) : ProgramDesc :=
  { desc with shaderLibraries := desc.shaderLibraries ++ [path] }

/-- Builder call `desc.vsEntry(name)`. -/
def ProgramDesc.vsEntry (desc : ProgramDesc) (name : String) : ProgramDesc :=
  { desc with entryPoints := desc.entryPoints ++ [(ShaderType.Vertex, name)] }

/-- Builder call `desc.psEntry(name)`. -/
def ProgramDesc.psEntry (desc : ProgramDesc) (name : String) : ProgramDesc :=
  { desc with entryPoints := desc.entryPoints ++ [(ShaderType.Pixel, name)] }

/-- Builder call `desc.setShaderModel(sm)`. -/
def ProgramDesc.setShaderModel (desc : ProgramDesc) (sm : String) : ProgramDesc :=
  { desc with shaderModel := sm }

/-- An entry-point group of a ray-tracing program description. -/
inductive EntryPointGroup
  | rayGen (raygen : String)
  | miss (miss : String)
  | hitGroup (closestHit anyHit : String)
  deriving DecidableEq, Repr

/-- Index of an entry-point group inside its program description (`RtProgram::ShaderID`). -/
abbrev ShaderID := Nat

/-- The description of a ray-tracing program (`RtProgram::Desc`). -/
structure RtProgramDesc where
  shaderLibraries : List String
  maxPayloadSize : Nat
  maxAttributeSize : Nat
  maxTraceRecursionDepth : Nat
  entryPointGroups : List EntryPointGroup
  deriving DecidableEq, Repr

/-- A default-constructed `RtProgram::Desc`. -/
def RtProgramDesc.empty : RtProgramDesc :=
  { shaderLibraries := [], maxPayloadSize := 0, maxAttributeSize := 0,
    maxTraceRecursionDepth := 0, entryPointGroups := [] }

/-- Builder call `desc.addShaderLibrary(path)`. -/
def RtProgramDesc.addShaderLibrary (desc : RtProgramDesc) (path : String) : RtProgramDesc :=
  { desc with shaderLibraries := desc.shaderLibraries ++ [path] }

/-- Builder call `desc.setMaxPayloadSize(n)`. -/
def RtProgramDesc.setMaxPayloadSize (desc : RtProgramDesc) (n : Nat) : RtProgramDesc :=
  { desc with maxPayloadSize := n }

/-- Builder call `desc.setMaxAttributeSize(n)`. -/
def RtProgramDesc.setMaxAttributeSize (desc : RtProgramDesc) (n : Nat) : RtProgramDesc :=
  { desc with maxAttributeSize := n }

/-- Builder call `desc.setMaxTraceRecursionDepth(n)`. -/
def RtProgramDesc.setMaxTraceRecursionDepth (desc : RtProgramDesc) (n : Nat) : RtProgramDesc :=
  { desc with maxTraceRecursionDepth := n }

/-- Adding an entry-point group returns the identifier of the new group and the extended
description. -/
def RtProgramDesc.addGroup (desc : RtProgramDesc) (g : EntryPointGroup) : ShaderID × RtProgramDesc :=
  (desc.entryPointGroups.length, { desc with entryPointGroups := desc.entryPointGroups ++ [g] })

/-- Builder call `desc.addRayGen(raygen)`. -/
def RtProgramDesc.addRayGen (desc : RtProgramDesc) (raygen : String) : ShaderID × RtProgramDesc :=
  desc.addGroup (EntryPointGroup.rayGen raygen)

/-- Builder call `desc.addMiss(miss)`. -/
def RtProgramDesc.addMiss (desc : RtProgramDesc) (miss : String) : ShaderID × RtProgramDesc :=
  desc.addGroup (EntryPointGroup.miss miss)

/-- Builder call `desc.addHitGroup(closestHit, anyHit)`. -/
def RtProgramDesc.addHitGroup (desc : RtProgramDesc) (closestHit anyHit : String) :
    ShaderID × RtProgramDesc :=
  desc.addGroup (EntryPointGroup.hitGroup closestHit anyHit)

/-! ## The framework as a record of calls -/

/-- A call a pass makes into the framework.  Factory calls carry the identity of the object
the framework handed back.  Queries on inputs are not calls.  The list holds the calls of
the two passes and, so that their absence can be stated, `RenderContext_clearDsv`. -/
inductive Call
  | GraphicsProgram_create (desc : ProgramDesc) (result : ObjectId)
  | GraphicsState_create (result : ObjectId)
  | GraphicsState_setProgram (pState pProgram : ObjectId)
  | GraphicsState_setFbo (pState pFbo : ObjectId)
  | Fbo_create (result : ObjectId)
  | Fbo_attachColorTarget (pFbo : ObjectId) (pTexture : Option Texture) (rtIndex : Nat)
  | GraphicsVars_create (pProgram : ObjectId) (result : ObjectId)
  | ShaderVar_setTexture (pVars : ObjectId) (path : List String) (pTexture : Option Texture)
  | ShaderVar_setUint (pVars : ObjectId) (path : List String) (value : Nat)
  | Program_addDefines (pProgram : ObjectId) (defines : DefineList)
  | Program_setTypeConformances (pProgram : ObjectId) (conformances : TypeConformanceList)
  | RenderContext_clearRtv (pRtv : RenderTargetView) (color : float4)
  | RenderContext_clearDsv (pDsv : DepthStencilView) (depth : ℚ) (stencil : Nat)
  | RenderContext_clearUAV (pUav : UnorderedAccessView) (value : float4)
  | Scene_rasterize (scene : Scene) (pState pVars : ObjectId) (cullMode : CullMode)
  | Scene_raytrace (scene : Scene) (pProgram : ObjectId) (pVars : ObjectId) (dispatchDims : uint3)
  | SampleGenerator_create (type : Nat) (result : ObjectId)
  | SampleGenerator_setShaderData (pSampleGenerator pVars : ObjectId)
  | RtBindingTable_create (missCount rayTypeCount geometryCount : Nat) (result : ObjectId)
  | RtBindingTable_setRayGen (pBindingTable : ObjectId) (shaderID : ShaderID)
  | RtBindingTable_setMiss (pBindingTable : ObjectId) (missIndex : Nat) (shaderID : ShaderID)
  | RtBindingTable_setHitGroup (pBindingTable : ObjectId) (rayType : Nat)
      (geometryIDs : List Nat) (shaderID : ShaderID)
  | RtProgram_create (desc : RtProgramDesc) (defines : DefineList) (result : ObjectId)
  | RtProgramVars_create (pProgram pBindingTable : Option ObjectId) (result : ObjectId)
  | logWarning (msg : String)

/-- Whether a call clears a depth buffer. -/
def Call.isDepthClear : Call → Bool
  | Call.RenderContext_clearDsv _ _ _ => true
  | _ => false

/-- Whether a call creates program variables. -/
def Call.isVarsCreate : Call → Bool
  | Call.GraphicsVars_create _ _ => true
  | Call.RtProgramVars_create _ _ _ => true
  | _ => false

/-- Whether a call binds a value to a shader variable. -/
def Call.isBind : Call → Bool
  | Call.ShaderVar_setTexture _ _ _ => true
  | Call.ShaderVar_setUint _ _ _ => true
  | _ => false

/-- Whether a call rasterizes a scene. -/
def Call.isRasterize : Call → Bool
  | Call.Scene_rasterize _ _ _ _ => true
  | _ => false

/-- Whether a call dispatches rays. -/
def Call.isRaytrace : Call → Bool
  | Call.Scene_raytrace _ _ _ _ => true
  | _ => false

/-- The framework as a pass sees it: the calls made so far, oldest first, and the identity
the next factory call will hand back.  A factory always hands back a fresh, non-null
object; a factory that fails does so inside the framework. -/
structure Framework where
  nextObject : ObjectId
  calls : List Call

/-- A framework nothing has been asked of yet. -/
def Framework.initial : Framework := { nextObject := 1, calls := [] }

/-- Record one call. -/
def Framework.call (fw : Framework) (c : Call) : Framework :=
  { fw with calls := fw.calls ++ [c] }

/-- Record a factory call and hand back the fresh object. -/
def Framework.create (fw : Framework) (mk : ObjectId → Call) : ObjectId × Framework :=
  (fw.nextObject, { nextObject := fw.nextObject + 1, calls := fw.calls ++ [mk fw.nextObject] })

/-! ## Failures and operations -/

/-- How an operation of a pass can fail: a `RuntimeError` thrown by a `throw` statement,
a failed `FALCOR_ASSERT`, or the use of a null pointer through `->`. -/
inductive Failure
  | RuntimeError (msg : String)
  | AssertionFailed (expr : String)
  | NullDereference (expr : String)
  deriving DecidableEq, Repr

/-- Whether a failure is an exception thrown by a `throw` statement. -/
def Failure.isRuntimeError : Failure → Bool
  | Failure.RuntimeError _ => true
  | _ => false

/-- What a member function leaves behind: its result or failure, the members of the pass
and the framework record. -/
structure Outcome (σ α : Type) where
  result : Except Failure α
  self : σ
  framework : Framework

/-- Whether an outcome is a failure. -/
def Outcome.failed {σ α : Type} (o : Outcome σ α) : Bool :=
  match o.result with
  | Except.ok _ => false
  | Except.error _ => true

/-- Whether an outcome is a thrown `RuntimeError`. -/
def Outcome.threw {σ α : Type} (o : Outcome σ α) : Bool :=
  match o.result with
  | Except.ok _ => false
  | Except.error e => e.isRuntimeError

/-- A member function of a pass with members `σ`. -/
def Exec (σ α : Type) : Type := σ → Framework → Outcome σ α

namespace Exec

variable {σ α β : Type}

/-- Finish with a value. -/
def ret (a : α) : Exec σ α := fun s fw => { result := Except.ok a, self := s, framework := fw }

/-- Run `m`, then `f` on its value; a failure of `m` ends the function. -/
def andThen (m : Exec σ α) (f : α → Exec σ β) : Exec σ β := fun s fw =>
  match m s fw with
  | { result := Except.ok a, self := s1, framework := fw1 } => f a s1 fw1
  | { result := Except.error e, self := s1, framework := fw1 } =>
    { result := Except.error e, self := s1, framework := fw1 }

instance : Monad (Exec σ) where
  pure := ret
  bind := andThen

/-- Fail: a `throw` statement, a failed assertion or a null dereference. -/
def fail (e : Failure) : Exec σ α := fun s fw =>
  { result := Except.error e, self := s, framework := fw }

/-- Read the members. -/
def getSelf : Exec σ σ := fun s fw => { result := Except.ok s, self := s, framework := fw }

/-- Assign members. -/
def modifySelf (f : σ → σ) : Exec σ Unit := fun s fw =>
  { result := Except.ok (), self := f s, framework := fw }

/-- Make a call into the framework. -/
def call (c : Call) : Exec σ Unit := fun s fw =>
  { result := Except.ok (), self := s, framework := fw.call c }

/-- Make a factory call into the framework. -/
def create (mk : ObjectId → Call) : Exec σ ObjectId := fun s fw =>
  { result := Except.ok (fw.create mk).1, self := s, framework := (fw.create mk).2 }

/-- Use a pointer through `->`: a null pointer fails. -/
def deref (p : Option α) (expr : String) : Exec σ α :=
  match p with
  | some a => ret a
  | none => fail (Failure.NullDereference expr)

/-- A range-based `for` over a list. -/
def forEach (xs : List α) (body : α → Exec σ Unit) : Exec σ Unit :=
  match xs with
  | [] => ret ()
  | x :: rest => andThen (body x) fun _ => forEach rest body

end Exec

/-- Modelled from the spec: the framework check `FALCOR_ASSERT(cond)`, a preprocessor
definition outside the sources.  Where the build enables assertions a false condition is a
fatal error; elsewhere the statement is empty. -/
def FALCOR_ASSERT {σ : Type} (assertsEnabled : Bool) (cond : Bool) (expr : String) : Exec σ Unit :=
  if assertsEnabled && !cond then Exec.fail (Failure.AssertionFailed expr) else Exec.ret ()

/-! ## JumpRenderPass -/

/-- The nested `mRaster` member of `JumpRenderPass`.  `pProgram` and `pState` are assigned
once by the constructor and never reset, so they always point to an object; `pVars` is the
pointer the pass resets and tests. -/
structure JumpRenderPass.Raster where
  pProgram : ObjectId
  pState : ObjectId
  pVars : Option ObjectId

/-- The members of `JumpRenderPass`.  `mpFbo` is assigned once by the constructor and never
reset; `mpScene` is null until a scene is set. -/
structure JumpRenderPass where
  mpScene : Option Scene
  mRaster : JumpRenderPass.Raster
  mpFbo : ObjectId

namespace JumpRenderPass

def kProgramFile : String := "RenderPasses/JumpRenderPass/JumpRenderPass.slang"
def kShaderModel : String := "6_2"

def kDefaultCullMode : CullMode := CullMode.Back
def kOuputColor : String := "output"
def kOuputColorDesc : String := "Output Color texture"

def kInputChannels : ChannelList :=
  [ { name := "vbuffer", texname := "gVBuffer",
      desc := "V-buffer in packed format (indices + barycentrics)",
      optional := true, format := ResourceFormat.RGBA32Uint },
    { name := "viewW", texname := "viewW",
      desc := "V-buffer in packed format (indices + barycentrics)",
      optional := true, format := ResourceFormat.RGBA32Float } ]

/-- The function `JumpRenderPass::reflect`. -/
def reflect (_self : JumpRenderPass) (_compileData : CompileData) : RenderPassReflection :=
  -- Define the required resources here
  let reflector := RenderPassReflection.empty
  let reflector := reflector.addOutput kOuputColor kOuputColorDesc
    (Field.setFormat ResourceFormat.RGBA32Float)
  let reflector := addRenderPassInputs reflector kInputChannels ResourceBindFlags.UnorderedAccess
  reflector

/-- The function `JumpRenderPass::execute`. -/
def execute (renderData : RenderData) : Exec JumpRenderPass Unit := do
  let self ← Exec.getSelf
  Exec.call (Call.Fbo_attachColorTarget self.mpFbo (asTexture (renderData.getResource kOuputColor)) 0)
  Exec.call (Call.RenderContext_clearRtv (Fbo.getRenderTargetView self.mpFbo 0) (float4.splat 0))
  -- If there is no scene, clear depth buffer and return.
  match self.mpScene with
  | none => return ()
  | some scene =>
    let pVars ← match self.mRaster.pVars with
      | some pVars => pure pVars
      | none => do
        let pVars ← Exec.create (Call.GraphicsVars_create self.mRaster.pProgram)
        Exec.modifySelf fun s => { s with mRaster := { s.mRaster with pVars := some pVars } }
        pure pVars
    Exec.forEach kInputChannels fun channel => do
      let pTex := asTexture (renderData.getResource channel.name)
      Exec.call (Call.ShaderVar_setTexture pVars [channel.texname] pTex)
    let pTex := asTexture (renderData.getResource kOuputColor)
    Exec.call (Call.ShaderVar_setTexture pVars [kOuputColor] pTex)
    Exec.call (Call.GraphicsState_setFbo self.mRaster.pState self.mpFbo) -- Sets the viewport
    -- Rasterize the scene.
    Exec.call (Call.Scene_rasterize scene self.mRaster.pState pVars CullMode.Back)

/-- The function `JumpRenderPass::setScene`. -/
def setScene (pScene : Option Scene) : Exec JumpRenderPass Unit := do
  Exec.modifySelf fun s => { s with mpScene := pScene }
  Exec.modifySelf fun s => { s with mRaster := { s.mRaster with pVars := none } }
  match pScene with
  | none => return ()
  | some scene =>
    if (match scene.getMeshVao with
        | some vao => vao.getPrimitiveTopology != Topology.TriangleList
        | none => false) then
      Exec.fail (Failure.RuntimeError
        "GBufferRaster: Requires triangle list geometry due to usage of SV_Barycentrics.")
    else
      let self ← Exec.getSelf
      Exec.call (Call.Program_addDefines self.mRaster.pProgram (DefineList.Scene_getSceneDefines scene))
      Exec.call (Call.Program_setTypeConformances self.mRaster.pProgram
        (TypeConformanceList.Scene_getTypeConformances scene))

end JumpRenderPass

/-- The constructor `JumpRenderPass::JumpRenderPass`, run against the device behind
`gpDevice`.  A constructor that throws leaves no object. -/
def JumpRenderPass.JumpRenderPass (gpDevice : Device) (fw : Framework) :
    Except Failure Falcor.JumpRenderPass × Framework :=
  -- Check for required features.
  if !gpDevice.isFeatureSupported SupportedFeatures.Barycentrics then
    (Except.error (Failure.RuntimeError
      "GBufferRaster: Pixel shader barycentrics are not supported by the current device"), fw)
  else if !gpDevice.isFeatureSupported SupportedFeatures.RasterizerOrderedViews then
    (Except.error (Failure.RuntimeError
      "GBufferRaster: Rasterizer ordered views (ROVs) are not supported by the current device"), fw)
  else
    -- Create raster program
    let desc := ProgramDesc.empty
    let desc := ((desc.addShaderLibrary JumpRenderPass.kProgramFile).vsEntry "vsMain").psEntry "psMain"
    let desc := desc.setShaderModel JumpRenderPass.kShaderModel
    let (pProgram, fw) := fw.create (Call.GraphicsProgram_create desc)
    -- Initialize graphics state
    let (pState, fw) := fw.create Call.GraphicsState_create
    let fw := fw.call (Call.GraphicsState_setProgram pState pProgram)
    let (mpFbo, fw) := fw.create Call.Fbo_create
    (Except.ok { mpScene := none,
                 mRaster := { pProgram := pProgram, pState := pState, pVars := none },
                 mpFbo := mpFbo }, fw)

/-- The function `JumpRenderPass::create`. -/
def JumpRenderPass.create (gpDevice : Device) (fw : Framework) :
    Except Failure Falcor.JumpRenderPass × Framework :=
  Falcor.JumpRenderPass.JumpRenderPass gpDevice fw

/-! ## RenderPass01 -/

/-- The nested `mTracer` member of `RenderPass01`; `setScene` resets all three pointers. -/
structure RenderPass01.Tracer where
  pProgram : Option ObjectId
  pBindingTable : Option ObjectId
  pVars : Option ObjectId

/-- The members of `RenderPass01`.  `mFrameCount` is a 32-bit unsigned counter.  The scene
pointer every statement but one uses is `mScene`.  `mpScene` is the pointer the first
assertion of `prepareVars` names: it is a member of its own, which no statement of the
pass assigns, so it stays null from construction on. -/
structure RenderPass01 where
  mFrameCount : Nat
  mSampleGenerator : Option ObjectId
  mScene : Option Scene
  mpScene : Option Scene
  mTracer : RenderPass01.Tracer

namespace RenderPass01

def cShaderFile : String := "RenderPasses/RenderPass01/RenderPass01.slang"
def cMaxRecursionDepth : Nat := 2
def cMaxPayloadSizeBytes : Nat := 72

/-- The sample generator type `SAMPLE_GENERATOR_UNIFORM`, a framework constant outside the
sources; its numeric value plays no role. -/
def SAMPLE_GENERATOR_UNIFORM : Nat := 1

def kOutputChannels : ChannelList :=
  [ { name := "color", texname := "outputColor",
      desc := "Output color (sum of direct and indirect)",
      optional := false, format := ResourceFormat.RGBA32Float } ]

def kInputChannels : ChannelList :=
  [ { name := "vbuffer", texname := "gVBuffer", desc := "Visibility buffer in packed format" },
    { name := "viewW", texname := "gViewW",
      desc := "World-space view direction (xyz float format)", optional := true } ]

/-- The function `RenderPass01::reflect`. -/
def reflect (_self : RenderPass01) (_compileData : CompileData) : RenderPassReflection :=
  -- Define the required resources here
  let reflector := RenderPassReflection.empty
  let reflector := addRenderPassInputs reflector kInputChannels ResourceBindFlags.ShaderResource
  let reflector := addRenderPassOutputs reflector kOutputChannels ResourceBindFlags.UnorderedAccess
  reflector

/-- The function `RenderPass01::prepareVars`.  Its first assertion tests `mpScene`, not the
scene member `mScene` that `setScene` assigns and the next statements use. -/
def prepareVars (assertsEnabled : Bool) : Exec RenderPass01 Unit := do
  let self ← Exec.getSelf
  FALCOR_ASSERT assertsEnabled self.mpScene.isSome "mpScene"
  FALCOR_ASSERT assertsEnabled self.mTracer.pProgram.isSome "mTracer.pProgram"
  -- Configure program.
  let pProgram ← Exec.deref self.mTracer.pProgram "mTracer.pProgram"
  let pSampleGenerator ← Exec.deref self.mSampleGenerator "mSampleGenerator"
  Exec.call (Call.Program_addDefines pProgram (DefineList.SampleGenerator_getDefines pSampleGenerator))
  let scene ← Exec.deref self.mScene "mScene"
  Exec.call (Call.Program_setTypeConformances pProgram
    (TypeConformanceList.Scene_getTypeConformances scene))
  -- Create program variables for the current program.
  let pVars ← Exec.create (Call.RtProgramVars_create self.mTracer.pProgram self.mTracer.pBindingTable)
  Exec.modifySelf fun s => { s with mTracer := { s.mTracer with pVars := some pVars } }
  -- Bind utility classes into shared data.
  Exec.call (Call.SampleGenerator_setShaderData pSampleGenerator pVars)

/-- The function `RenderPass01::execute`. -/
def execute (assertsEnabled : Bool) (renderData : RenderData) : Exec RenderPass01 Unit := do
  let self ← Exec.getSelf
  match self.mScene with
  | none =>
    -- renderData holds the requested resources
    let pTexture ← Exec.deref (asTexture (renderData.getResource "color")) "pTexture"
    Exec.call (Call.RenderContext_clearUAV pTexture.getUAV (float4.splat 1))
    return ()
  | some scene =>
    -- For optional I/O resources, set 'is_valid_<name>' defines.
    let pProgram ← Exec.deref self.mTracer.pProgram "mTracer.pProgram"
    Exec.call (Call.Program_addDefines pProgram
      (DefineList.getValidResourceDefines kInputChannels renderData))
    Exec.call (Call.Program_addDefines pProgram
      (DefineList.getValidResourceDefines kOutputChannels renderData))
    if self.mTracer.pVars.isNone then
      prepareVars assertsEnabled
    -- Get dimensions of ray dispatch.
    let targetDim := renderData.getDefaultTextureDims
    FALCOR_ASSERT assertsEnabled (decide (targetDim.x > 0) && decide (targetDim.y > 0))
      "targetDim.x > 0 && targetDim.y > 0"
    let pVars ← Exec.deref (← Exec.getSelf).mTracer.pVars "mTracer.pVars"
    Exec.call (Call.ShaderVar_setUint pVars ["CB", "gFrameCount"] self.mFrameCount)
    -- Bind I/O buffers.
    let bind := fun (desc : ChannelDesc) =>
      if !desc.texname.isEmpty then
        Exec.call (Call.ShaderVar_setTexture pVars [desc.texname]
          (asTexture (renderData.getResource desc.name)))
      else
        (Exec.ret () : Exec RenderPass01 Unit)
    Exec.forEach kInputChannels bind
    Exec.forEach kOutputChannels bind
    Exec.call (Call.Scene_raytrace scene pProgram pVars
      { x := targetDim.x, y := targetDim.y, z := 1 })
    Exec.modifySelf fun s => { s with mFrameCount := (s.mFrameCount + 1) % 2 ^ 32 }

/-- The function `RenderPass01::setScene`. -/
def setScene (pScene : Option Scene) : Exec RenderPass01 Unit := do
  Exec.modifySelf fun s => { s with mTracer := { s.mTracer with pProgram := none } }
  Exec.modifySelf fun s => { s with mTracer := { s.mTracer with pBindingTable := none } }
  Exec.modifySelf fun s => { s with mTracer := { s.mTracer with pVars := none } }
  Exec.modifySelf fun s => { s with mScene := pScene }
  match pScene with
  | none => return ()
  | some mScene =>
    if mScene.hasGeometryType GeometryType.Custom then
      Exec.call (Call.logWarning "RenderPass01: This render pass does not support custom primitives.")
    let desc := RtProgramDesc.empty
    let desc := desc.addShaderLibrary cShaderFile
    let desc := desc.setMaxPayloadSize cMaxPayloadSizeBytes
    let desc := desc.setMaxAttributeSize mScene.getRaytracingMaxAttributeSize
    let desc := desc.setMaxTraceRecursionDepth cMaxRecursionDepth
    let sbt ← Exec.create (Call.RtBindingTable_create 2 2 mScene.getGeometryCount)
    Exec.modifySelf fun s => { s with mTracer := { s.mTracer with pBindingTable := some sbt } }
    let (rayGen, desc) := desc.addRayGen "rayGen"
    Exec.call (Call.RtBindingTable_setRayGen sbt rayGen)
    let (miss0, desc) := desc.addMiss "triangleMeshMiss"
    Exec.call (Call.RtBindingTable_setMiss sbt 0 miss0)
    let (miss1, desc) := desc.addMiss "shadowMiss"
    Exec.call (Call.RtBindingTable_setMiss sbt 1 miss1)
    let desc ← if mScene.hasGeometryType GeometryType.TriangleMesh then do
        let (hit0, desc) := desc.addHitGroup "triangleMeshClosestHit" "triangleMeshClosestAnyHit"
        Exec.call (Call.RtBindingTable_setHitGroup sbt 0
          (mScene.getGeometryIDs GeometryType.TriangleMesh) hit0)
        let (hit1, desc) := desc.addHitGroup "" "shadowTriangleMeshAnyHit"
        Exec.call (Call.RtBindingTable_setHitGroup sbt 1
          (mScene.getGeometryIDs GeometryType.TriangleMesh) hit1)
        pure desc
      else
        pure desc
    let pProgram ← Exec.create (Call.RtProgram_create desc (DefineList.Scene_getSceneDefines mScene))
    Exec.modifySelf fun s => { s with mTracer := { s.mTracer with pProgram := some pProgram } }

end RenderPass01

/-- The constructor `RenderPass01::RenderPass01`: the member initialisers (`mFrameCount`
is 0, every pointer is null), then the body.  The dictionary argument is not read.  A
constructor that fails leaves no object. -/
def RenderPass01.RenderPass01 (assertsEnabled : Bool) (fw : Framework) :
    Except Failure Falcor.RenderPass01 × Framework :=
  let members : Falcor.RenderPass01 :=
    { mFrameCount := 0, mSampleGenerator := none, mScene := none, mpScene := none,
      mTracer := { pProgram := none, pBindingTable := none, pVars := none } }
  let body : Exec Falcor.RenderPass01 Unit := do
    -- Create a sample generator.
    let pSampleGenerator ← Exec.create
      (Call.SampleGenerator_create RenderPass01.SAMPLE_GENERATOR_UNIFORM)
    Exec.modifySelf fun s => { s with mSampleGenerator := some pSampleGenerator }
    FALCOR_ASSERT assertsEnabled (← Exec.getSelf).mSampleGenerator.isSome "mSampleGenerator"
  let done := body members fw
  (done.result.map fun _ => done.self, done.framework)

/-- The function `RenderPass01::create`. -/
def RenderPass01.create (assertsEnabled : Bool) (fw : Framework) :
    Except Failure Falcor.RenderPass01 × Framework :=
  Falcor.RenderPass01.RenderPass01 assertsEnabled fw

/-! ## Properties of operations -/

/-- An operation that never throws a `RuntimeError`, whatever the members and the
framework record it starts from. -/
structure Exec.NoThrow {σ α : Type} (m : Exec σ α) : Prop where
  out : ∀ s fw, (m s fw).threw = false

/-- An operation that never fails, whatever the members and the framework record it
starts from. -/
structure Exec.NoFail {σ α : Type} (m : Exec σ α) : Prop where
  out : ∀ s fw, (m s fw).failed = false

/-- An operation that leaves the observation `f` of the members as it was, also when it
fails. -/
structure Exec.Keeps {σ α β : Type} (f : σ → β) (m : Exec σ α) : Prop where
  out : ∀ s fw, f (m s fw).self = f s

/-- The invariant of `RenderPass01`: the sample generator exists, and a pass with a scene
has a program. -/
def RenderPass01.WellFormed (self : Falcor.RenderPass01) : Prop :=
  self.mSampleGenerator.isSome = true ∧
  (self.mScene.isSome = true → self.mTracer.pProgram.isSome = true)

instance (self : RenderPass01) : Decidable (RenderPass01.WellFormed self) := by
  unfold RenderPass01.WellFormed
  infer_instance

/-- What `RenderPass01.WellFormed` looks at. -/
def RenderPass01.guarded (self : Falcor.RenderPass01) : Bool × Bool × Bool :=
  (self.mSampleGenerator.isSome, self.mScene.isSome, self.mTracer.pProgram.isSome)

/-! ## Concrete inputs -/

/-- A device that supports rasterizer ordered views but not pixel-shader barycentrics. -/
def deviceWithoutBarycentrics : Device :=
  { supportedFeatures := [SupportedFeatures.RasterizerOrderedViews] }

/-- A device that supports both features `JumpRenderPass` asks for. -/
def rasterDevice : Device :=
  { supportedFeatures := [SupportedFeatures.Barycentrics, SupportedFeatures.RasterizerOrderedViews] }

/-- A scene whose mesh VAO holds line lists. -/
def lineListScene : Scene :=
  { id := 7,
    getMeshVao := some { getPrimitiveTopology := Topology.LineList },
    hasGeometryType := fun t => decide (t = GeometryType.TriangleMesh),
    getGeometryIDs := fun t => if t = GeometryType.TriangleMesh then [0] else [],
    getGeometryCount := 1,
    getRaytracingMaxAttributeSize := 8 }

/-- A scene of one triangle mesh. -/
def triangleScene : Scene :=
  { id := 8,
    getMeshVao := some { getPrimitiveTopology := Topology.TriangleList },
    hasGeometryType := fun t => decide (t = GeometryType.TriangleMesh),
    getGeometryIDs := fun t => if t = GeometryType.TriangleMesh then [0] else [],
    getGeometryCount := 1,
    getRaytracingMaxAttributeSize := 8 }

/-- The `JumpRenderPass` its constructor builds on `rasterDevice` from
`Framework.initial`. -/
def constructedJumpRenderPass : JumpRenderPass :=
  { mpScene := none, mRaster := { pProgram := 1, pState := 2, pVars := none }, mpFbo := 3 }

/-- The framework record after that construction. -/
def afterJumpRenderPassConstruction : Framework :=
  (JumpRenderPass.JumpRenderPass rasterDevice Framework.initial).2

/-- The `RenderPass01` its constructor builds from `Framework.initial`. -/
def constructedRenderPass01 : RenderPass01 :=
  { mFrameCount := 0, mSampleGenerator := some 1, mScene := none, mpScene := none,
    mTracer := { pProgram := none, pBindingTable := none, pVars := none } }

/-- The framework record after that construction. -/
def afterRenderPass01Construction : Framework :=
  (RenderPass01.RenderPass01 true Framework.initial).2

/-- Render data holding one texture for the channel "output" and one for "color". -/
def outputRenderData : RenderData :=
  { getResource := fun name =>
      if name = "output" then some (Resource.texture { id := 10 })
      else if name = "color" then some (Resource.texture { id := 20 })
      else none,
    getDefaultTextureDims := { x := 4, y := 4 } }

/-- Render data without any resource. -/
def emptyRenderData : RenderData :=
  { getResource := fun _ => none,
    getDefaultTextureDims := { x := 4, y := 4 } }

/-! # Theorems -/

/-! ## Composition lemmas -/

namespace Exec

variable {σ α β γ : Type}

theorem noThrow_pure (a : α) : NoThrow (pure a : Exec σ α) := ⟨fun _ _ => rfl⟩

theorem noThrow_ret (a : α) : NoThrow (ret a : Exec σ α) := ⟨fun _ _ => rfl⟩

theorem noThrow_getSelf : NoThrow (getSelf : Exec σ σ) := ⟨fun _ _ => rfl⟩

theorem noThrow_modifySelf (f : σ → σ) : NoThrow (modifySelf f) := ⟨fun _ _ => rfl⟩

theorem noThrow_call (c : Call) : NoThrow (call c : Exec σ Unit) := ⟨fun _ _ => rfl⟩

theorem noThrow_create (mk : ObjectId → Call) : NoThrow (create mk : Exec σ ObjectId) :=
  ⟨fun _ _ => rfl⟩

theorem noThrow_deref (p : Option α) (expr : String) : NoThrow (deref p expr : Exec σ α) := by
  cases p <;> exact ⟨fun _ _ => rfl⟩

theorem noThrow_andThen {m : Exec σ α} {f : α → Exec σ β} (hm : NoThrow m)
    (hf : ∀ a, NoThrow (f a)) : NoThrow (andThen m f) := by
  constructor
  intro s fw
  have h1 := hm.out s fw
  unfold andThen
  rcases h : m s fw with ⟨r, s1, fw1⟩
  cases r with
  | ok a => exact (hf a).out s1 fw1
  | error e => rw [h] at h1; exact h1

theorem noThrow_bind {m : Exec σ α} {f : α → Exec σ β} (hm : NoThrow m)
    (hf : ∀ a, NoThrow (f a)) : NoThrow (m >>= f) := noThrow_andThen hm hf

theorem noThrow_forEach (xs : List α) (body : α → Exec σ Unit) (hb : ∀ a, NoThrow (body a)) :
    NoThrow (forEach xs body) := by
  induction xs with
  | nil => exact noThrow_ret ()
  | cons x rest ih => exact noThrow_andThen (hb x) fun _ => ih

theorem noFail_pure (a : α) : NoFail (pure a : Exec σ α) := ⟨fun _ _ => rfl⟩

theorem noFail_ret (a : α) : NoFail (ret a : Exec σ α) := ⟨fun _ _ => rfl⟩

theorem noFail_getSelf : NoFail (getSelf : Exec σ σ) := ⟨fun _ _ => rfl⟩

theorem noFail_modifySelf (f : σ → σ) : NoFail (modifySelf f) := ⟨fun _ _ => rfl⟩

theorem noFail_call (c : Call) : NoFail (call c : Exec σ Unit) := ⟨fun _ _ => rfl⟩

theorem noFail_create (mk : ObjectId → Call) : NoFail (create mk : Exec σ ObjectId) :=
  ⟨fun _ _ => rfl⟩

theorem noFail_andThen {m : Exec σ α} {f : α → Exec σ β} (hm : NoFail m)
    (hf : ∀ a, NoFail (f a)) : NoFail (andThen m f) := by
  constructor
  intro s fw
  have h1 := hm.out s fw
  unfold andThen
  rcases h : m s fw with ⟨r, s1, fw1⟩
  cases r with
  | ok a => exact (hf a).out s1 fw1
  | error e => rw [h] at h1; exact h1

theorem noFail_bind {m : Exec σ α} {f : α → Exec σ β} (hm : NoFail m)
    (hf : ∀ a, NoFail (f a)) : NoFail (m >>= f) := noFail_andThen hm hf

theorem noFail_forEach (xs : List α) (body : α → Exec σ Unit) (hb : ∀ a, NoFail (body a)) :
    NoFail (forEach xs body) := by
  induction xs with
  | nil => exact noFail_ret ()
  | cons x rest ih => exact noFail_andThen (hb x) fun _ => ih

theorem keeps_pure (g : σ → γ) (a : α) : Keeps g (pure a : Exec σ α) := ⟨fun _ _ => rfl⟩

theorem keeps_ret (g : σ → γ) (a : α) : Keeps g (ret a : Exec σ α) := ⟨fun _ _ => rfl⟩

theorem keeps_fail (g : σ → γ) (e : Failure) : Keeps g (fail e : Exec σ α) := ⟨fun _ _ => rfl⟩

theorem keeps_getSelf (g : σ → γ) : Keeps g (getSelf : Exec σ σ) := ⟨fun _ _ => rfl⟩

theorem keeps_modifySelf (g : σ → γ) (f : σ → σ) (h : ∀ s, g (f s) = g s) :
    Keeps g (modifySelf f) := ⟨fun s _ => h s⟩

theorem keeps_call (g : σ → γ) (c : Call) : Keeps g (call c : Exec σ Unit) := ⟨fun _ _ => rfl⟩

theorem keeps_create (g : σ → γ) (mk : ObjectId → Call) :
    Keeps g (create mk : Exec σ ObjectId) := ⟨fun _ _ => rfl⟩

theorem keeps_deref (g : σ → γ) (p : Option α) (expr : String) :
    Keeps g (deref p expr : Exec σ α) := by
  cases p <;> exact ⟨fun _ _ => rfl⟩

theorem keeps_andThen (g : σ → γ) {m : Exec σ α} {f : α → Exec σ β} (hm : Keeps g m)
    (hf : ∀ a, Keeps g (f a)) : Keeps g (andThen m f) := by
  constructor
  intro s fw
  have h1 := hm.out s fw
  unfold andThen
  rcases h : m s fw with ⟨r, s1, fw1⟩
  rw [h] at h1
  cases r with
  | ok a => exact ((hf a).out s1 fw1).trans h1
  | error e => exact h1

theorem keeps_bind (g : σ → γ) {m : Exec σ α} {f : α → Exec σ β} (hm : Keeps g m)
    (hf : ∀ a, Keeps g (f a)) : Keeps g (m >>= f) := keeps_andThen g hm hf

theorem keeps_forEach (g : σ → γ) (xs : List α) (body : α → Exec σ Unit)
    (hb : ∀ a, Keeps g (body a)) : Keeps g (forEach xs body) := by
  induction xs with
  | nil => exact keeps_ret g ()
  | cons x rest ih => exact keeps_andThen g (hb x) fun _ => ih

end Exec

theorem noThrow_FALCOR_ASSERT {σ : Type} (a c : Bool) (expr : String) :
    Exec.NoThrow (FALCOR_ASSERT a c expr : Exec σ Unit) := by
  unfold FALCOR_ASSERT
  split <;> exact ⟨fun _ _ => rfl⟩

theorem keeps_FALCOR_ASSERT {σ γ : Type} (g : σ → γ) (a c : Bool) (expr : String) :
    Exec.Keeps g (FALCOR_ASSERT a c expr : Exec σ Unit) := by
  unfold FALCOR_ASSERT
  split <;> exact ⟨fun _ _ => rfl⟩

/-! ## Lemmas on the operations of the passes -/

theorem renderPass01_prepareVars_noThrow (assertsEnabled : Bool) :
    Exec.NoThrow (RenderPass01.prepareVars assertsEnabled) := by
  unfold RenderPass01.prepareVars
  repeat' first
    | with_reducible apply Exec.noThrow_pure
    | with_reducible apply Exec.noThrow_getSelf
    | with_reducible apply Exec.noThrow_modifySelf
    | with_reducible apply Exec.noThrow_call
    | with_reducible apply Exec.noThrow_create
    | with_reducible apply Exec.noThrow_deref
    | with_reducible apply noThrow_FALCOR_ASSERT
    | with_reducible apply Exec.noThrow_bind
    | intro _

theorem renderPass01_execute_noThrow (assertsEnabled : Bool) (renderData : RenderData) :
    Exec.NoThrow (RenderPass01.execute assertsEnabled renderData) := by
  unfold RenderPass01.execute
  repeat' first
    | with_reducible apply Exec.noThrow_pure
    | with_reducible apply Exec.noThrow_ret
    | with_reducible apply Exec.noThrow_getSelf
    | with_reducible apply Exec.noThrow_modifySelf
    | with_reducible apply Exec.noThrow_call
    | with_reducible apply Exec.noThrow_create
    | with_reducible apply Exec.noThrow_deref
    | with_reducible apply Exec.noThrow_forEach
    | with_reducible apply noThrow_FALCOR_ASSERT
    | with_reducible apply renderPass01_prepareVars_noThrow
    | with_reducible apply Exec.noThrow_bind
    | intro _
    | split

theorem renderPass01_prepareVars_keeps (assertsEnabled : Bool) :
    Exec.Keeps RenderPass01.guarded (RenderPass01.prepareVars assertsEnabled) := by
  unfold RenderPass01.prepareVars
  repeat' first
    | with_reducible apply Exec.keeps_pure
    | with_reducible apply Exec.keeps_getSelf
    | with_reducible apply Exec.keeps_modifySelf
    | with_reducible apply Exec.keeps_call
    | with_reducible apply Exec.keeps_create
    | with_reducible apply Exec.keeps_deref
    | with_reducible apply keeps_FALCOR_ASSERT
    | with_reducible apply Exec.keeps_bind
    | intro _
    | rfl

theorem renderPass01_execute_keeps (assertsEnabled : Bool) (renderData : RenderData) :
    Exec.Keeps RenderPass01.guarded (RenderPass01.execute assertsEnabled renderData) := by
  unfold RenderPass01.execute
  repeat' first
    | with_reducible apply Exec.keeps_pure
    | with_reducible apply Exec.keeps_ret
    | with_reducible apply Exec.keeps_getSelf
    | with_reducible apply Exec.keeps_modifySelf
    | with_reducible apply Exec.keeps_call
    | with_reducible apply Exec.keeps_create
    | with_reducible apply Exec.keeps_deref
    | with_reducible apply Exec.keeps_forEach
    | with_reducible apply keeps_FALCOR_ASSERT
    | with_reducible apply renderPass01_prepareVars_keeps
    | with_reducible apply Exec.keeps_bind
    | intro _
    | split
    | rfl

theorem renderPass01_setScene_noFail (pScene : Option Scene) :
    Exec.NoFail (RenderPass01.setScene pScene) := by
  unfold RenderPass01.setScene
  repeat' first
    | with_reducible apply Exec.noFail_pure
    | with_reducible apply Exec.noFail_ret
    | with_reducible apply Exec.noFail_getSelf
    | with_reducible apply Exec.noFail_modifySelf
    | with_reducible apply Exec.noFail_call
    | with_reducible apply Exec.noFail_create
    | with_reducible apply Exec.noFail_bind
    | intro _
    | split

theorem jumpRenderPass_execute_noFail (renderData : RenderData) :
    Exec.NoFail (JumpRenderPass.execute renderData) := by
  unfold JumpRenderPass.execute
  repeat' first
    | with_reducible apply Exec.noFail_pure
    | with_reducible apply Exec.noFail_ret
    | with_reducible apply Exec.noFail_getSelf
    | with_reducible apply Exec.noFail_modifySelf
    | with_reducible apply Exec.noFail_call
    | with_reducible apply Exec.noFail_create
    | with_reducible apply Exec.noFail_forEach
    | with_reducible apply Exec.noFail_bind
    | intro _
    | split

theorem wellFormed_of_guarded {s t : RenderPass01} (h : RenderPass01.guarded t = RenderPass01.guarded s)
    (hs : RenderPass01.WellFormed s) : RenderPass01.WellFormed t := by
  unfold RenderPass01.guarded at h
  unfold RenderPass01.WellFormed at hs ⊢
  simp only [Prod.mk.injEq] at h
  rw [h.1, h.2.1, h.2.2]
  exact hs


theorem jumpRenderPass_execute_without_scene (renderData : RenderData) (self : JumpRenderPass)
    (fw : Framework) (h : self.mpScene = none) :
    JumpRenderPass.execute renderData self fw =
      { result := Except.ok (), self := self,
        framework :=
          { nextObject := fw.nextObject,
            calls := fw.calls ++
              [ Call.Fbo_attachColorTarget self.mpFbo (asTexture (renderData.getResource "output")) 0,
                Call.RenderContext_clearRtv { pFbo := self.mpFbo, rtIndex := 0 }
                  (float4.splat 0) ] } } := by
  simp [JumpRenderPass.execute, h, bind, pure, Exec.andThen, Exec.ret, Exec.getSelf, Exec.call,
    Framework.call, Fbo.getRenderTargetView, JumpRenderPass.kOuputColor]

theorem renderPass01_setScene_wellFormed (pScene : Option Scene) (self : RenderPass01)
    (fw : Framework) (h : RenderPass01.WellFormed self) :
    RenderPass01.WellFormed (RenderPass01.setScene pScene self fw).self := by
  obtain ⟨hg, _⟩ := h
  cases pScene with
  | none =>
    simp [RenderPass01.setScene, RenderPass01.WellFormed, bind, pure, Exec.andThen, Exec.ret,
      Exec.modifySelf, hg]
  | some scene =>
    cases hc : scene.hasGeometryType GeometryType.Custom <;>
    cases ht : scene.hasGeometryType GeometryType.TriangleMesh <;>
    simp [RenderPass01.setScene, RenderPass01.WellFormed, bind, pure, Exec.andThen, Exec.ret,
      Exec.modifySelf, Exec.create, Exec.call, hg, hc, ht]

theorem renderPass01_execute_succeeds (assertsEnabled : Bool) (renderData : RenderData)
    (self : RenderPass01) (fw : Framework) (hwf : RenderPass01.WellFormed self)
    (hcolor : self.mScene = none → ∃ t, asTexture (renderData.getResource "color") = some t)
    (hasserts : self.mScene.isSome = true → assertsEnabled = false) :
    (RenderPass01.execute assertsEnabled renderData self fw).failed = false := by
  obtain ⟨hg, hp⟩ := hwf
  have e1 : "gVBuffer".isEmpty = false := rfl
  have e2 : "gViewW".isEmpty = false := rfl
  have e3 : "outputColor".isEmpty = false := rfl
  obtain ⟨gen, hgen⟩ := Option.isSome_iff_exists.mp hg
  cases hs : self.mScene with
  | none =>
    obtain ⟨t, ht⟩ := hcolor hs
    simp [RenderPass01.execute, hs, ht, bind, pure, Exec.andThen, Exec.ret, Exec.getSelf,
      Exec.call, Exec.deref, Outcome.failed]
  | some scene =>
    obtain ⟨prog, hprog⟩ := Option.isSome_iff_exists.mp (hp (by simp [hs]))
    have hd : assertsEnabled = false := hasserts (by simp [hs])
    cases hv : self.mTracer.pVars with
    | none =>
      simp [RenderPass01.execute, RenderPass01.prepareVars, FALCOR_ASSERT, hs, hprog, hgen, hv, hd,
        bind, pure, Exec.andThen, Exec.ret, Exec.getSelf, Exec.call, Exec.deref, Exec.create,
        Exec.modifySelf, Exec.forEach, RenderPass01.kInputChannels, RenderPass01.kOutputChannels,
        Outcome.failed, e1, e2, e3]
    | some vars =>
      simp [RenderPass01.execute, FALCOR_ASSERT, hs, hprog, hgen, hv, hd,
        bind, pure, Exec.andThen, Exec.ret, Exec.getSelf, Exec.call, Exec.deref, Exec.create,
        Exec.modifySelf, Exec.forEach, RenderPass01.kInputChannels, RenderPass01.kOutputChannels,
        Outcome.failed, e1, e2, e3]

theorem constructedJumpRenderPass_eq :
    JumpRenderPass.JumpRenderPass rasterDevice Framework.initial =
      (Except.ok constructedJumpRenderPass, afterJumpRenderPassConstruction) := rfl

theorem constructedRenderPass01_eq :
    RenderPass01.RenderPass01 true Framework.initial =
      (Except.ok constructedRenderPass01, afterRenderPass01Construction) := rfl

/-! ## The claims -/

/-- C1: `reflect` declares exactly each pass's channels, whatever the compile data and the
members of the pass.  `JumpRenderPass::reflect` yields exactly one output, "output" with
format RGBA32Float, and exactly the two inputs "vbuffer" and "viewW", both optional;
`RenderPass01::reflect` yields exactly the inputs "vbuffer" (required) and "viewW"
(optional) and exactly one output, "color" (required, RGBA32Float).  Inputs and outputs
together are all the fields. -/
theorem reflect_declares_channels (jump : JumpRenderPass) (pass01 : RenderPass01)
    (compileData : CompileData) :
    (JumpRenderPass.reflect jump compileData).outputs =
        [ { name := "output", desc := "Output Color texture", visibility := Visibility.Output,
            format := ResourceFormat.RGBA32Float, bindFlags := ResourceBindFlags.None,
            optional := false } ] ∧
    (JumpRenderPass.reflect jump compileData).inputs =
        [ { name := "vbuffer", desc := "V-buffer in packed format (indices + barycentrics)",
            visibility := Visibility.Input, format := ResourceFormat.RGBA32Uint,
            bindFlags := ResourceBindFlags.UnorderedAccess, optional := true },
          { name := "viewW", desc := "V-buffer in packed format (indices + barycentrics)",
            visibility := Visibility.Input, format := ResourceFormat.RGBA32Float,
            bindFlags := ResourceBindFlags.UnorderedAccess, optional := true } ] ∧
    (JumpRenderPass.reflect jump compileData).fields =
        (JumpRenderPass.reflect jump compileData).outputs ++
        (JumpRenderPass.reflect jump compileData).inputs ∧
    (RenderPass01.reflect pass01 compileData).inputs =
        [ { name := "vbuffer", desc := "Visibility buffer in packed format",
            visibility := Visibility.Input, format := ResourceFormat.Unknown,
            bindFlags := ResourceBindFlags.ShaderResource, optional := false },
          { name := "viewW", desc := "World-space view direction (xyz float format)",
            visibility := Visibility.Input, format := ResourceFormat.Unknown,
            bindFlags := ResourceBindFlags.ShaderResource, optional := true } ] ∧
    (RenderPass01.reflect pass01 compileData).outputs =
        [ { name := "color", desc := "Output color (sum of direct and indirect)",
            visibility := Visibility.Output, format := ResourceFormat.RGBA32Float,
            bindFlags := ResourceBindFlags.UnorderedAccess, optional := false } ] ∧
    (RenderPass01.reflect pass01 compileData).fields =
        (RenderPass01.reflect pass01 compileData).inputs ++
        (RenderPass01.reflect pass01 compileData).outputs :=
  ⟨rfl, rfl, rfl, rfl, rfl, rfl⟩

/-- C2, the claim as written fails.  By design: constructing a `JumpRenderPass` on a
device without pixel-shader barycentrics raises a `RuntimeError`, and so does
`JumpRenderPass::setScene` on a scene whose mesh VAO holds line lists.
`RenderPass01::execute` returns an error as well: on render data without "color" a pass
without scene uses the null texture pointer, and where assertions are enabled the first
`execute` after `setScene` stops at `FALCOR_ASSERT(mpScene)`, with a scene set, a "color"
texture bound and positive texture dimensions. -/
theorem jumpRenderPass_guards_raise :
    (JumpRenderPass.JumpRenderPass deviceWithoutBarycentrics Framework.initial).1 =
      Except.error (Failure.RuntimeError
        "GBufferRaster: Pixel shader barycentrics are not supported by the current device") ∧
    (JumpRenderPass.setScene (some lineListScene) constructedJumpRenderPass
        afterJumpRenderPassConstruction).result =
      Except.error (Failure.RuntimeError
        "GBufferRaster: Requires triangle list geometry due to usage of SV_Barycentrics.") ∧
    (RenderPass01.execute false emptyRenderData constructedRenderPass01
        afterRenderPass01Construction).result =
      Except.error (Failure.NullDereference "pTexture") ∧
    (RenderPass01.execute true outputRenderData
        (RenderPass01.setScene (some triangleScene) constructedRenderPass01
          afterRenderPass01Construction).self
        (RenderPass01.setScene (some triangleScene) constructedRenderPass01
          afterRenderPass01Construction).framework).result =
      Except.error (Failure.AssertionFailed "mpScene") :=
  ⟨rfl, rfl, rfl, rfl⟩

/-- C2 as amended: the passes raise errors from their own code by design only in the two
guards of `JumpRenderPass`.  Its constructor fails only with a `RuntimeError` and only on
a device that lacks Barycentrics or RasterizerOrderedViews; its `setScene` fails only with
a `RuntimeError` and only on a non-null scene whose mesh VAO is not a triangle list.
`JumpRenderPass::execute`, constructing a `RenderPass01` and `RenderPass01::setScene`
return no error for any input.  `RenderPass01::execute` never raises a `RuntimeError`; on
a well-formed pass (what the constructor builds and `setScene` and `execute` keep) it
returns no error when no scene is set and the render data holds a "color" texture, and no
error when a scene is set and assertions are compiled out.  What `execute` does with a
scene set where assertions are enabled is left open. -/
theorem only_jumpRenderPass_guards_raise :
    (∀ (gpDevice : Device) (fw : Framework),
      (∃ pass, (JumpRenderPass.JumpRenderPass gpDevice fw).1 = Except.ok pass) ∨
      ((∃ msg, (JumpRenderPass.JumpRenderPass gpDevice fw).1 =
          Except.error (Failure.RuntimeError msg)) ∧
        (gpDevice.isFeatureSupported SupportedFeatures.Barycentrics = false ∨
         gpDevice.isFeatureSupported SupportedFeatures.RasterizerOrderedViews = false))) ∧
    (∀ (pScene : Option Scene) (self : JumpRenderPass) (fw : Framework),
      (JumpRenderPass.setScene pScene self fw).result = Except.ok () ∨
      ((∃ msg, (JumpRenderPass.setScene pScene self fw).result =
          Except.error (Failure.RuntimeError msg)) ∧
        (∃ scene vao, pScene = some scene ∧ scene.getMeshVao = some vao ∧
          vao.getPrimitiveTopology ≠ Topology.TriangleList))) ∧
    (∀ (renderData : RenderData) (self : JumpRenderPass) (fw : Framework),
      (JumpRenderPass.execute renderData self fw).failed = false) ∧
    (∀ (assertsEnabled : Bool) (fw : Framework),
      ∃ pass, (RenderPass01.RenderPass01 assertsEnabled fw).1 = Except.ok pass ∧
        RenderPass01.WellFormed pass) ∧
    (∀ (pScene : Option Scene) (self : RenderPass01) (fw : Framework),
      (RenderPass01.setScene pScene self fw).failed = false ∧
      (RenderPass01.WellFormed self →
        RenderPass01.WellFormed (RenderPass01.setScene pScene self fw).self)) ∧
    (∀ (assertsEnabled : Bool) (renderData : RenderData) (self : RenderPass01) (fw : Framework),
      (RenderPass01.execute assertsEnabled renderData self fw).threw = false ∧
      (RenderPass01.WellFormed self →
        RenderPass01.WellFormed (RenderPass01.execute assertsEnabled renderData self fw).self) ∧
      (RenderPass01.WellFormed self →
        (self.mScene = none → ∃ t, asTexture (renderData.getResource "color") = some t) →
        (self.mScene.isSome = true → assertsEnabled = false) →
        (RenderPass01.execute assertsEnabled renderData self fw).failed = false)) := by
  refine ⟨?_, ?_, ?_, ?_, ?_, ?_⟩
  · intro gpDevice fw
    cases hb : gpDevice.isFeatureSupported SupportedFeatures.Barycentrics <;>
    cases hr : gpDevice.isFeatureSupported SupportedFeatures.RasterizerOrderedViews <;>
    simp [JumpRenderPass.JumpRenderPass, hb, hr, Framework.create, Framework.call]
  · intro pScene self fw
    cases pScene with
    | none =>
      simp [JumpRenderPass.setScene, bind, pure, Exec.andThen, Exec.ret, Exec.modifySelf]
    | some scene =>
      cases hv : scene.getMeshVao with
      | none =>
        simp [JumpRenderPass.setScene, bind, pure, Exec.andThen, Exec.ret, Exec.modifySelf,
          Exec.getSelf, Exec.call, Exec.fail, hv]
      | some vao =>
        by_cases ht : vao.getPrimitiveTopology = Topology.TriangleList <;>
        simp [JumpRenderPass.setScene, bind, pure, Exec.andThen, Exec.ret, Exec.modifySelf,
          Exec.getSelf, Exec.call, Exec.fail, hv, ht]
  · intro renderData self fw
    exact (jumpRenderPass_execute_noFail renderData).out self fw
  · intro assertsEnabled fw
    cases assertsEnabled <;>
    simp [RenderPass01.RenderPass01, RenderPass01.WellFormed, FALCOR_ASSERT, bind, Exec.andThen,
      Exec.ret, Exec.create, Exec.modifySelf, Exec.getSelf, Except.map]
  · intro pScene self fw
    exact ⟨(renderPass01_setScene_noFail pScene).out self fw,
      renderPass01_setScene_wellFormed pScene self fw⟩
  · intro assertsEnabled renderData self fw
    exact ⟨(renderPass01_execute_noThrow assertsEnabled renderData).out self fw,
      wellFormed_of_guarded ((renderPass01_execute_keeps assertsEnabled renderData).out self fw),
      renderPass01_execute_succeeds assertsEnabled renderData self fw⟩

/-- C3: constructing a `JumpRenderPass` checks the required device features.  For every
device the constructor raises a `RuntimeError` if and only if the device does not support
Barycentrics or does not support RasterizerOrderedViews; a device without Barycentrics
gets the Barycentrics error whether or not it supports RasterizerOrderedViews.  When both
are supported the constructor succeeds: it creates the raster program, creates a graphics
state and sets that program on it, creates an FBO, and leaves the program vars and the
scene null. -/
theorem jumpRenderPass_constructor_checks_features (gpDevice : Device) (fw : Framework) :
    ((∃ msg, (JumpRenderPass.JumpRenderPass gpDevice fw).1 =
        Except.error (Failure.RuntimeError msg)) ↔
      (gpDevice.isFeatureSupported SupportedFeatures.Barycentrics = false ∨
       gpDevice.isFeatureSupported SupportedFeatures.RasterizerOrderedViews = false)) ∧
    (gpDevice.isFeatureSupported SupportedFeatures.Barycentrics = false →
      JumpRenderPass.JumpRenderPass gpDevice fw =
        (Except.error (Failure.RuntimeError
          "GBufferRaster: Pixel shader barycentrics are not supported by the current device"), fw)) ∧
    (gpDevice.isFeatureSupported SupportedFeatures.Barycentrics = true →
     gpDevice.isFeatureSupported SupportedFeatures.RasterizerOrderedViews = false →
      JumpRenderPass.JumpRenderPass gpDevice fw =
        (Except.error (Failure.RuntimeError
          "GBufferRaster: Rasterizer ordered views (ROVs) are not supported by the current device"),
         fw)) ∧
    (gpDevice.isFeatureSupported SupportedFeatures.Barycentrics = true →
     gpDevice.isFeatureSupported SupportedFeatures.RasterizerOrderedViews = true →
      JumpRenderPass.JumpRenderPass gpDevice fw =
        (Except.ok
          { mpScene := none,
            mRaster := { pProgram := fw.nextObject, pState := fw.nextObject + 1, pVars := none },
            mpFbo := fw.nextObject + 2 },
         { nextObject := fw.nextObject + 3,
           calls := fw.calls ++
             [ Call.GraphicsProgram_create
                 { shaderLibraries := ["RenderPasses/JumpRenderPass/JumpRenderPass.slang"],
                   entryPoints := [(ShaderType.Vertex, "vsMain"), (ShaderType.Pixel, "psMain")],
                   shaderModel := "6_2" } fw.nextObject,
               Call.GraphicsState_create (fw.nextObject + 1),
               Call.GraphicsState_setProgram (fw.nextObject + 1) fw.nextObject,
               Call.Fbo_create (fw.nextObject + 2) ] })) := by
  cases hb : gpDevice.isFeatureSupported SupportedFeatures.Barycentrics <;>
  cases hr : gpDevice.isFeatureSupported SupportedFeatures.RasterizerOrderedViews <;>
  simp [JumpRenderPass.JumpRenderPass, hb, hr, Framework.create, Framework.call,
    ProgramDesc.empty, ProgramDesc.addShaderLibrary, ProgramDesc.vsEntry, ProgramDesc.psEntry,
    ProgramDesc.setShaderModel, JumpRenderPass.kProgramFile, JumpRenderPass.kShaderModel]

/-- C4: `JumpRenderPass::setScene` requires triangle-list geometry.  For every scene
argument it raises a `RuntimeError` if and only if the scene is non-null, has a mesh VAO,
and that VAO's primitive topology is not TriangleList, and it fails in no other way.  A
null scene and a scene without mesh VAO are accepted.  An accepted non-null scene has its
defines and its type conformances added to the raster program; a null scene and a refused
scene add nothing. -/
theorem jumpRenderPass_setScene_requires_triangle_list (pScene : Option Scene)
    (self : JumpRenderPass) (fw : Framework) :
    ((∃ msg, (JumpRenderPass.setScene pScene self fw).result
        = Except.error (Failure.RuntimeError msg)) ↔
      (∃ scene vao, pScene = some scene ∧ scene.getMeshVao = some vao ∧
        vao.getPrimitiveTopology ≠ Topology.TriangleList)) ∧
    ((JumpRenderPass.setScene pScene self fw).result = Except.ok () ∨
      (JumpRenderPass.setScene pScene self fw).result = Except.error (Failure.RuntimeError
        "GBufferRaster: Requires triangle list geometry due to usage of SV_Barycentrics.")) ∧
    (pScene = none →
      (JumpRenderPass.setScene pScene self fw).result = Except.ok () ∧
      (JumpRenderPass.setScene pScene self fw).framework = fw) ∧
    (∀ scene, pScene = some scene → scene.getMeshVao = none →
      (JumpRenderPass.setScene pScene self fw).result = Except.ok ()) ∧
    (∀ scene, pScene = some scene →
      (JumpRenderPass.setScene pScene self fw).result = Except.ok () →
      (JumpRenderPass.setScene pScene self fw).framework =
        { nextObject := fw.nextObject,
          calls := fw.calls ++
            [ Call.Program_addDefines self.mRaster.pProgram (DefineList.Scene_getSceneDefines scene),
              Call.Program_setTypeConformances self.mRaster.pProgram
                (TypeConformanceList.Scene_getTypeConformances scene) ] }) ∧
    ((JumpRenderPass.setScene pScene self fw).result ≠ Except.ok () →
      (JumpRenderPass.setScene pScene self fw).framework = fw) := by
  cases pScene with
  | none =>
    simp [JumpRenderPass.setScene, bind, pure, Exec.andThen, Exec.ret, Exec.modifySelf]
  | some scene =>
    cases hv : scene.getMeshVao with
    | none =>
      simp [JumpRenderPass.setScene, bind, pure, Exec.andThen, Exec.ret, Exec.modifySelf,
        Exec.getSelf, Exec.call, Exec.fail, Framework.call, hv]
    | some vao =>
      by_cases ht : vao.getPrimitiveTopology = Topology.TriangleList <;>
      simp [JumpRenderPass.setScene, bind, pure, Exec.andThen, Exec.ret, Exec.modifySelf,
        Exec.getSelf, Exec.call, Exec.fail, Framework.call, hv, ht]

/-- C5, the code at the failing input: on the pass the constructor builds, with no scene
set, `JumpRenderPass::execute` returns normally with the members as they were after two
calls, attaching the "output" texture as colour target 0 and clearing that render target
to zero.  It creates no program vars, binds no channel and issues no rasterize call, and
no call of the pass, before or during `execute`, clears a depth buffer. -/
theorem jumpRenderPass_execute_without_scene_clears_colour_only :
    (JumpRenderPass.execute outputRenderData constructedJumpRenderPass
        afterJumpRenderPassConstruction).result = Except.ok () ∧
    (JumpRenderPass.execute outputRenderData constructedJumpRenderPass
        afterJumpRenderPassConstruction).self.mRaster.pVars = none ∧
    (JumpRenderPass.execute outputRenderData constructedJumpRenderPass
        afterJumpRenderPassConstruction).framework.calls =
      afterJumpRenderPassConstruction.calls ++
        [ Call.Fbo_attachColorTarget 3 (some { id := 10 }) 0,
          Call.RenderContext_clearRtv { pFbo := 3, rtIndex := 0 } (float4.splat 0) ] ∧
    (JumpRenderPass.execute outputRenderData constructedJumpRenderPass
        afterJumpRenderPassConstruction).framework.calls.any Call.isDepthClear = false ∧
    (JumpRenderPass.execute outputRenderData constructedJumpRenderPass
        afterJumpRenderPassConstruction).framework.calls.any Call.isVarsCreate = false ∧
    (JumpRenderPass.execute outputRenderData constructedJumpRenderPass
        afterJumpRenderPassConstruction).framework.calls.any Call.isBind = false ∧
    (JumpRenderPass.execute outputRenderData constructedJumpRenderPass
        afterJumpRenderPassConstruction).framework.calls.any Call.isRasterize = false := by
  rw [jumpRenderPass_execute_without_scene outputRenderData constructedJumpRenderPass
    afterJumpRenderPassConstruction rfl]
  exact ⟨rfl, rfl, rfl, rfl, rfl, rfl, rfl⟩

/-- C6: when no scene is set, `RenderPass01::execute` only clears the "color" output.  For
every render data whose "color" channel holds a texture, `execute` on a pass whose scene is
null returns normally after exactly one call, the clear of that texture's UAV to
(1,1,1,1); it issues no raytrace dispatch and leaves every member as it was, the frame
count, the program, the binding table and the program vars among them. -/
theorem renderPass01_execute_without_scene_only_clears_color (assertsEnabled : Bool)
    (renderData : RenderData) (self : RenderPass01) (fw : Framework) (pTexture : Texture)
    (hScene : self.mScene = none)
    (hColor : asTexture (renderData.getResource "color") = some pTexture) :
    (RenderPass01.execute assertsEnabled renderData self fw).result = Except.ok () ∧
    (RenderPass01.execute assertsEnabled renderData self fw).framework =
      { nextObject := fw.nextObject,
        calls := fw.calls ++
          [ Call.RenderContext_clearUAV { pResource := pTexture }
              { x := 1, y := 1, z := 1, w := 1 } ] } ∧
    (∀ c, c ∈ (RenderPass01.execute assertsEnabled renderData self fw).framework.calls →
      c.isRaytrace = true → c ∈ fw.calls) ∧
    (RenderPass01.execute assertsEnabled renderData self fw).self = self ∧
    (RenderPass01.execute assertsEnabled renderData self fw).self.mFrameCount = self.mFrameCount ∧
    (RenderPass01.execute assertsEnabled renderData self fw).self.mTracer.pProgram =
      self.mTracer.pProgram ∧
    (RenderPass01.execute assertsEnabled renderData self fw).self.mTracer.pBindingTable =
      self.mTracer.pBindingTable ∧
    (RenderPass01.execute assertsEnabled renderData self fw).self.mTracer.pVars =
      self.mTracer.pVars := by
  have h : RenderPass01.execute assertsEnabled renderData self fw =
      { result := Except.ok (), self := self,
        framework :=
          { nextObject := fw.nextObject,
            calls := fw.calls ++
              [ Call.RenderContext_clearUAV { pResource := pTexture }
                  { x := 1, y := 1, z := 1, w := 1 } ] } } := by
    simp [RenderPass01.execute, hScene, hColor, bind, pure, Exec.andThen, Exec.ret, Exec.getSelf,
      Exec.call, Exec.deref, Framework.call, Texture.getUAV, float4.splat]
  rw [h]
  refine ⟨rfl, rfl, ?_, rfl, rfl, rfl, rfl, rfl⟩
  intro c hc hray
  rcases List.mem_append.mp hc with hc | hc
  · exact hc
  · rw [List.mem_singleton] at hc
    rw [hc] at hray
    exact absurd hray (by simp [Call.isRaytrace])

/-- C6 at a concrete input: the pass the constructor builds, run on render data whose
"color" channel holds texture 20. -/
theorem renderPass01_execute_without_scene_only_clears_color_witness :
    (RenderPass01.execute true outputRenderData constructedRenderPass01
        afterRenderPass01Construction).result = Except.ok () ∧
    (RenderPass01.execute true outputRenderData constructedRenderPass01
        afterRenderPass01Construction).framework =
      { nextObject := 2,
        calls := [ Call.SampleGenerator_create 1 1,
                   Call.RenderContext_clearUAV { pResource := { id := 20 } }
                     { x := 1, y := 1, z := 1, w := 1 } ] } ∧
    (RenderPass01.execute true outputRenderData constructedRenderPass01
        afterRenderPass01Construction).self = constructedRenderPass01 :=
  have h := renderPass01_execute_without_scene_only_clears_color true outputRenderData
    constructedRenderPass01 afterRenderPass01Construction { id := 20 } rfl rfl
  ⟨h.1, h.2.1, h.2.2.2.1⟩

end Falcor
